import Mathlib

/-!
Shallow embedding of `src/lab-03/simulation.py` (paraxial ray tracing of a
liquid-filled lens container) and verification of its specification.

Numeric model: the script computes with Python floats, using `np.inf` (an IEEE
infinity) as a sentinel for "object at infinity" / "flat surface".  We model a
Python float as `PVal`: an exact rational (finite values are modelled exactly,
ignoring rounding), a signed infinity, or NaN.  Python float division by zero
raises `ZeroDivisionError` (it does not return an IEEE infinity), so division
is the one fallible operation: `PVal.div` returns `Option PVal`, `none`
modelling the raised exception, and fallibility propagates through `refract`,
`trace_system`, `predict_focals` and `error_function` as `Option`.
IEEE signed zeros are collapsed to `0`: in this program the sign of a zero is
only ever consumed by division, which raises on any zero divisor.
-/

namespace Simulation

/-- A Python float value: an exact finite rational, a signed infinity, or NaN. -/
inductive PVal where
  | fin : ℚ → PVal
  | posInf : PVal
  | negInf : PVal
  | nan : PVal
deriving DecidableEq, BEq

namespace PVal

/-- `math.isinf`: true on both infinities, false on finite values and NaN. -/
def isInf : PVal → Bool
  | posInf => true
  | negInf => true
  | _ => false

/-- IEEE addition (finite part exact). -/
def add : PVal → PVal → PVal
  | fin a, fin b => fin (a + b)
  | fin _, posInf => posInf
  | fin _, negInf => negInf
  | posInf, fin _ => posInf
  | negInf, fin _ => negInf
  | posInf, posInf => posInf
  | negInf, negInf => negInf
  | posInf, negInf => nan
  | negInf, posInf => nan
  | nan, _ => nan
  | _, nan => nan

/-- IEEE subtraction (finite part exact). -/
def sub : PVal → PVal → PVal
  | fin a, fin b => fin (a - b)
  | fin _, posInf => negInf
  | fin _, negInf => posInf
  | posInf, fin _ => posInf
  | negInf, fin _ => negInf
  | posInf, negInf => posInf
  | negInf, posInf => negInf
  | posInf, posInf => nan
  | negInf, negInf => nan
  | nan, _ => nan
  | _, nan => nan

/-- IEEE multiplication (finite part exact); `0 * ±∞ = NaN`. -/
def mul : PVal → PVal → PVal
  | fin a, fin b => fin (a * b)
  | fin a, posInf => if 0 < a then posInf else if a < 0 then negInf else nan
  | fin a, negInf => if 0 < a then negInf else if a < 0 then posInf else nan
  | posInf, fin b => if 0 < b then posInf else if b < 0 then negInf else nan
  | negInf, fin b => if 0 < b then negInf else if b < 0 then posInf else nan
  | posInf, posInf => posInf
  | posInf, negInf => negInf
  | negInf, posInf => negInf
  | negInf, negInf => posInf
  | nan, _ => nan
  | _, nan => nan

/-- Python float division: raises (`none`) on any zero divisor, even with an
infinite or NaN dividend; otherwise IEEE semantics (finite part exact,
`finite / ±∞ = 0`, `±∞ / ±∞ = NaN`). -/
def div : PVal → PVal → Option PVal
  | fin a, fin b => if b = 0 then none else some (fin (a / b))
  | posInf, fin b => if b = 0 then none else if 0 < b then some posInf else some negInf
  | negInf, fin b => if b = 0 then none else if 0 < b then some negInf else some posInf
  | nan, fin b => if b = 0 then none else some nan
  | fin _, posInf => some (fin 0)
  | fin _, negInf => some (fin 0)
  | posInf, posInf => some nan
  | posInf, negInf => some nan
  | negInf, posInf => some nan
  | negInf, negInf => some nan
  | nan, posInf => some nan
  | nan, negInf => some nan
  | _, nan => some nan

/-- Python `abs` on a float. -/
def abs : PVal → PVal
  | fin a => fin |a|
  | posInf => posInf
  | negInf => posInf
  | nan => nan

end PVal

/-! Module constants of the script (exact rationals for the float literals). -/

def n_air : ℚ := 1
def n_plexi : ℚ := 1.491

def R_outer : ℚ := 30
def R_inner : ℚ := 27
def wall_thickness : ℚ := 3
def partition_thickness : ℚ := 2
def cavity_thickness : ℚ := 26

/-- Measured focal lengths (mm), in dict insertion order. -/
def f_measured : List (String × ℚ) :=
  [("empty", -500), ("one_filled", 132), ("both_filled", 55)]

/-- One refracting interface: `{"n1": .., "n2": .., "R": .., "t": ..}`. -/
structure Surface where
  n1 : PVal
  n2 : PVal
  R : PVal
  t : PVal
deriving DecidableEq

/-- `refract(n1, n2, R, s)`: image distance after refraction at one surface.
`none` models a raised `ZeroDivisionError`. -/
def refract (n1 n2 R s : PVal) : Option PVal :=
  if R.isInf then
    if s = PVal.posInf then some PVal.posInf
    else (PVal.div n2 n1).map (fun r => r.mul s)
  else if s = PVal.posInf then
    PVal.div (n2.mul R) (n2.sub n1)
  else
    (PVal.div (n2.sub n1) (n2.mul R)).bind fun a =>
      (PVal.div n1 (n2.mul s)).bind fun b =>
        PVal.div (PVal.fin 1) (a.sub b)

/-- The loop of `trace_system`, with the current object distance `s` as state.
Outer `none` = exception; `some none` = the Python `None` fallthrough return;
`some (some v)` = returning the float `v` at the last surface. -/
def traceFrom : PVal → List Surface → Option (Option PVal)
  | _, [] => some none
  | s, surf :: rest =>
    match refract surf.n1 surf.n2 surf.R s with
    | none => none
    | some s_prime =>
      match rest with
      | [] => some (some s_prime)
      | _ :: _ => traceFrom (surf.t.sub s_prime) rest

/-- `trace_system(surfaces)`: trace an object at infinity through the surfaces. -/
def trace_system (surfaces : List Surface) : Option (Option PVal) :=
  traceFrom PVal.posInf surfaces

/-- `build_systems(n_water)`: the three configurations, in dict insertion order. -/
def build_systems (n_water : ℚ) : List (String × List Surface) :=
  [("empty",
    [⟨.fin n_air, .fin n_plexi, .fin R_outer, .fin wall_thickness⟩,
     ⟨.fin n_plexi, .fin n_air, .fin R_inner, .fin cavity_thickness⟩,
     ⟨.fin n_air, .fin n_plexi, .posInf, .fin partition_thickness⟩,
     ⟨.fin n_plexi, .fin n_air, .posInf, .fin cavity_thickness⟩,
     ⟨.fin n_air, .fin n_plexi, .fin (-R_inner), .fin wall_thickness⟩,
     ⟨.fin n_plexi, .fin n_air, .fin (-R_outer), .fin 0⟩]),
   ("one_filled",
    [⟨.fin n_air, .fin n_plexi, .fin R_outer, .fin wall_thickness⟩,
     ⟨.fin n_plexi, .fin n_air, .fin R_inner, .fin cavity_thickness⟩,
     ⟨.fin n_air, .fin n_plexi, .posInf, .fin partition_thickness⟩,
     ⟨.fin n_plexi, .fin n_water, .posInf, .fin cavity_thickness⟩,
     ⟨.fin n_water, .fin n_plexi, .fin (-R_inner), .fin wall_thickness⟩,
     ⟨.fin n_plexi, .fin n_air, .fin (-R_outer), .fin 0⟩]),
   ("both_filled",
    [⟨.fin n_air, .fin n_plexi, .fin R_outer, .fin wall_thickness⟩,
     ⟨.fin n_plexi, .fin n_water, .fin R_inner, .fin cavity_thickness⟩,
     ⟨.fin n_water, .fin n_plexi, .posInf, .fin partition_thickness⟩,
     ⟨.fin n_plexi, .fin n_water, .posInf, .fin cavity_thickness⟩,
     ⟨.fin n_water, .fin n_plexi, .fin (-R_inner), .fin wall_thickness⟩,
     ⟨.fin n_plexi, .fin n_air, .fin (-R_outer), .fin 0⟩])]

/-- The dict comprehension of `predict_focals`: trace each system in order;
an exception in any trace aborts the whole map. -/
def traceAll : List (String × List Surface) → Option (List (String × Option PVal))
  | [] => some []
  | (name, sys) :: rest =>
    match trace_system sys with
    | none => none
    | some r => (traceAll rest).map (fun tl => (name, r) :: tl)

/-- `predict_focals(n_water)`: configuration name ↦ traced focal length. -/
def predict_focals (n_water : ℚ) : Option (List (String × Option PVal)) :=
  traceAll (build_systems n_water)

/-- The accumulation loop of `error_function` over `f_measured.items()`.
`some none` in the focal map (the Python `None` sentinel) would make
`abs(None)` raise a `TypeError`, modelled by `none`. -/
def errLoop (focals : List (String × Option PVal)) :
    PVal → List (String × ℚ) → Option PVal
  | err, [] => some err
  | err, (key, f_meas) :: rest =>
    match focals.lookup key with
    | none => none
    | some none => none
    | some (some f_model) =>
      (PVal.div (f_model.abs.sub (PVal.fin f_meas).abs) (PVal.fin f_meas)).bind
        fun d => errLoop focals (err.add (d.mul d)) rest

/-- `error_function(n_water)`: sum of squared relative errors. -/
def error_function (n_water : ℚ) : Option PVal :=
  (predict_focals n_water).bind fun focals => errLoop focals (PVal.fin 0) f_measured

/-! Evaluation lemmas for the finite and infinite cases of the arithmetic. -/

theorem PVal.sub_fin (a b : ℚ) : PVal.sub (.fin a) (.fin b) = .fin (a - b) := rfl

theorem PVal.mul_fin (a b : ℚ) : PVal.mul (.fin a) (.fin b) = .fin (a * b) := rfl

theorem PVal.add_fin (a b : ℚ) : PVal.add (.fin a) (.fin b) = .fin (a + b) := rfl

theorem PVal.abs_fin (a : ℚ) : PVal.abs (.fin a) = .fin |a| := rfl

theorem PVal.div_fin (a b : ℚ) (h : b ≠ 0) :
    PVal.div (.fin a) (.fin b) = some (.fin (a / b)) := by
  simp [PVal.div, h]

theorem PVal.div_fin_zero (a : ℚ) : PVal.div (.fin a) (.fin 0) = none := by
  simp [PVal.div]

theorem PVal.mul_fin_posInf (a : ℚ) (h : 0 < a) : PVal.mul (.fin a) .posInf = .posInf := by
  simp [PVal.mul, h]

theorem PVal.mul_fin_negInf (a : ℚ) (h : 0 < a) : PVal.mul (.fin a) .negInf = .negInf := by
  simp [PVal.mul, h]

/-- Curved surface, finite object distance: the general-formula branch. -/
theorem refract_fin_fin (n1 n2 r s : ℚ) :
    refract (.fin n1) (.fin n2) (.fin r) (.fin s) =
      (PVal.div (.fin (n2 - n1)) (.fin (n2 * r))).bind fun a =>
        (PVal.div (.fin n1) (.fin (n2 * s))).bind fun b =>
          PVal.div (.fin 1) (a.sub b) := rfl

/-- Curved surface, object at infinity. -/
theorem refract_fin_posInf (n1 n2 r : ℚ) :
    refract (.fin n1) (.fin n2) (.fin r) .posInf =
      PVal.div (.fin (n2 * r)) (.fin (n2 - n1)) := rfl

/-- Flat surface (`R = +∞`), finite object distance. -/
theorem refract_posInfR_fin (n1 n2 s : ℚ) :
    refract (.fin n1) (.fin n2) .posInf (.fin s) =
      (PVal.div (.fin n2) (.fin n1)).map (fun r => r.mul (.fin s)) := rfl

/-- Flat surface (`R = -∞`), finite object distance. -/
theorem refract_negInfR_fin (n1 n2 s : ℚ) :
    refract (.fin n1) (.fin n2) .negInf (.fin s) =
      (PVal.div (.fin n2) (.fin n1)).map (fun r => r.mul (.fin s)) := rfl

/-- Flat surface (`R = -∞`), object distance `-∞`. -/
theorem refract_negInfR_negInf (n1 n2 : ℚ) :
    refract (.fin n1) (.fin n2) .negInf .negInf =
      (PVal.div (.fin n2) (.fin n1)).map (fun r => r.mul .negInf) := rfl

/-- Flat surface (`R = +∞`), object distance `-∞`. -/
theorem refract_posInfR_negInf (n1 n2 : ℚ) :
    refract (.fin n1) (.fin n2) .posInf .negInf =
      (PVal.div (.fin n2) (.fin n1)).map (fun r => r.mul .negInf) := rfl

/-- If tracing a name-keyed list of systems succeeds, the first system's trace
succeeded and its result is what `lookup` finds under that name. -/
theorem traceAll_cons_lookup (name : String) (sys : List Surface)
    (rest : List (String × List Surface)) (fs : List (String × Option PVal))
    (h : traceAll ((name, sys) :: rest) = some fs) :
    ∃ r, trace_system sys = some r ∧ fs.lookup name = some r := by
  unfold traceAll at h
  cases hts : trace_system sys with
  | none => rw [hts] at h; exact absurd h (by simp)
  | some r =>
    rw [hts] at h
    cases hta : traceAll rest with
    | none => rw [hta] at h; simp at h
    | some tl =>
      rw [hta] at h
      simp only [Option.map_some', Option.some.injEq] at h
      refine ⟨r, rfl, ?_⟩
      rw [← h]
      simp [List.lookup]

/-! Claim theorems. -/

/-- Claim C1, counterexample: at `n1 = 1, n2 = 2, R = 1, s = 1` (finite nonzero
`R` and `s`) the general-formula denominator `(n2 - n1)/(n2*R) - n1/(n2*s)` is
exactly zero, yet `refract` does not return a signed infinity: the final
division raises `ZeroDivisionError` (modelled by `none`), because Python float
division by zero raises instead of producing an IEEE infinity. -/
theorem refract_zero_denom_counterexample :
    ((2 : ℚ) - 1) / (2 * 1) - 1 / (2 * 1) = 0 ∧
    refract (.fin 1) (.fin 2) (.fin 1) (.fin 1) = none := by
  constructor
  · norm_num
  · norm_num [refract_fin_fin, PVal.div_fin, PVal.div_fin_zero, PVal.sub_fin]

/-- Claim C1 (amended): for finite nonzero `R` and finite nonzero `s` with the
general-formula denominator exactly zero, `refract` raises `ZeroDivisionError`
(modelled as `none`); no signed-infinite value is produced. -/
theorem refract_zero_denom_raises (n1 n2 r s : ℚ) (hr : r ≠ 0) (hs : s ≠ 0)
    (hD : (n2 - n1) / (n2 * r) - n1 / (n2 * s) = 0) :
    refract (.fin n1) (.fin n2) (.fin r) (.fin s) = none := by
  by_cases h2r : n2 * r = 0
  · simp [refract_fin_fin, h2r, PVal.div_fin_zero]
  · by_cases h2s : n2 * s = 0
    · simp [refract_fin_fin, PVal.div_fin _ _ h2r, h2s, PVal.div_fin_zero]
    · simp [refract_fin_fin, PVal.div_fin _ _ h2r, PVal.div_fin _ _ h2s,
        PVal.sub_fin, hD, PVal.div_fin_zero]

/-- Witness for the amended Claim C1 at `n1 = 1, n2 = 2, R = 1, s = 1`. -/
theorem refract_zero_denom_raises_witness :
    refract (.fin 1) (.fin 2) (.fin 1) (.fin 1) = none :=
  refract_zero_denom_raises 1 2 1 1 (by norm_num) (by norm_num) (by norm_num)

/-- Claim C2, counterexample: at `n1 = 1, n2 = 2, R = 1, s = 2` the code
returns `s' = 4`, and `4` does not satisfy `n2/s' - n1/s = (n2-n1)/R`
(`2/4 - 1/2 = 0 ≠ 1`): the claimed equation has the wrong sign on `n1/s`. -/
theorem refract_paraxial_counterexample :
    refract (.fin 1) (.fin 2) (.fin 1) (.fin 2) = some (.fin 4) ∧
    ¬((2 : ℚ) / 4 - 1 / 2 = (2 - 1) / 1) := by
  constructor
  · norm_num [refract_fin_fin, PVal.div_fin, PVal.sub_fin]
  · norm_num

/-- Claim C2 (amended): for finite positive `n1, n2`, finite nonzero `R` and
`s`, and nonzero general-formula denominator `D`, `refract` returns the
algebraic solution `s' = 1/D` of the paraxial surface equation
`n2/s' + n1/s = (n2 - n1)/R` (the code's sign convention adds `n1/s`,
it does not subtract it). -/
theorem refract_solves_paraxial (n1 n2 r s : ℚ) (h1 : 0 < n1) (h2 : 0 < n2)
    (hr : r ≠ 0) (hs : s ≠ 0)
    (hD : (n2 - n1) / (n2 * r) - n1 / (n2 * s) ≠ 0) :
    refract (.fin n1) (.fin n2) (.fin r) (.fin s) =
      some (.fin (1 / ((n2 - n1) / (n2 * r) - n1 / (n2 * s)))) ∧
    n2 / (1 / ((n2 - n1) / (n2 * r) - n1 / (n2 * s))) + n1 / s = (n2 - n1) / r := by
  have h2r : n2 * r ≠ 0 := mul_ne_zero h2.ne' hr
  have h2s : n2 * s ≠ 0 := mul_ne_zero h2.ne' hs
  constructor
  · simp [refract_fin_fin, PVal.div_fin _ _ h2r, PVal.div_fin _ _ h2s,
      PVal.sub_fin, PVal.div_fin _ _ hD]
  · rw [one_div, div_inv_eq_mul]
    field_simp
    ring

/-- Witness for the amended Claim C2 at `n1 = 1, n2 = 2, R = 1, s = 2`. -/
theorem refract_solves_paraxial_witness :
    refract (.fin 1) (.fin 2) (.fin 1) (.fin 2) =
      some (.fin (1 / (((2 : ℚ) - 1) / (2 * 1) - 1 / (2 * 2)))) ∧
    (2 : ℚ) / (1 / (((2 : ℚ) - 1) / (2 * 1) - 1 / (2 * 2))) + 1 / 2 = (2 - 1) / 1 :=
  refract_solves_paraxial 1 2 1 2 (by norm_num) (by norm_num) (by norm_num)
    (by norm_num) (by norm_num)

/-- Claim C7: for positive `n1, n2`, refraction at a flat surface (infinite
radius of either sign) maps a finite object distance `s` to exactly
`(n2/n1) * s`, and an infinite object distance (of either sign) to an
infinite image distance. -/
theorem refract_flat_surface (n1 n2 s : ℚ) (h1 : 0 < n1) (h2 : 0 < n2) :
    refract (.fin n1) (.fin n2) .posInf (.fin s) = some (.fin (n2 / n1 * s)) ∧
    refract (.fin n1) (.fin n2) .negInf (.fin s) = some (.fin (n2 / n1 * s)) ∧
    refract (.fin n1) (.fin n2) .posInf .posInf = some .posInf ∧
    refract (.fin n1) (.fin n2) .negInf .posInf = some .posInf ∧
    refract (.fin n1) (.fin n2) .posInf .negInf = some .negInf ∧
    refract (.fin n1) (.fin n2) .negInf .negInf = some .negInf := by
  have hq : 0 < n2 / n1 := div_pos h2 h1
  refine ⟨?_, ?_, rfl, rfl, ?_, ?_⟩
  · rw [refract_posInfR_fin, PVal.div_fin _ _ h1.ne']
    simp [PVal.mul_fin]
  · rw [refract_negInfR_fin, PVal.div_fin _ _ h1.ne']
    simp [PVal.mul_fin]
  · rw [refract_posInfR_negInf, PVal.div_fin _ _ h1.ne']
    simp [PVal.mul_fin_negInf _ hq]
  · rw [refract_negInfR_negInf, PVal.div_fin _ _ h1.ne']
    simp [PVal.mul_fin_negInf _ hq]

/-- Witness for Claim C7 at `n1 = 1, n2 = 2, s = 5`. -/
theorem refract_flat_surface_witness :
    refract (.fin 1) (.fin 2) .posInf (.fin 5) = some (.fin ((2 : ℚ) / 1 * 5)) ∧
    refract (.fin 1) (.fin 2) .negInf (.fin 5) = some (.fin ((2 : ℚ) / 1 * 5)) ∧
    refract (.fin 1) (.fin 2) .posInf .posInf = some .posInf ∧
    refract (.fin 1) (.fin 2) .negInf .posInf = some .posInf ∧
    refract (.fin 1) (.fin 2) .posInf .negInf = some .negInf ∧
    refract (.fin 1) (.fin 2) .negInf .negInf = some .negInf :=
  refract_flat_surface 1 2 5 (by norm_num) (by norm_num)

/-- Claim C8: tracing a single-surface system returns exactly the result of
calling `refract` on that surface's parameters with the object at infinity;
no translation step is applied, and an exception propagates unchanged. -/
theorem trace_single_surface (surf : Surface) :
    trace_system [surf] = (refract surf.n1 surf.n2 surf.R PVal.posInf).map some := by
  cases h : refract surf.n1 surf.n2 surf.R PVal.posInf <;>
    simp [trace_system, traceFrom, h]

/-- Claim C10: tracing an empty surface sequence returns the Python `None`
sentinel (modelled `some none`: no exception, no numeric result): the loop
body is never entered and the trailing `return None` is reached. -/
theorem trace_system_nil : trace_system [] = some none := rfl

/-- Claim C3: whenever the predictor returns finite focal lengths, the error
function returns the single scalar equal to the sum over the three measured
entries of `((|predicted| - |measured|) / measured)^2` — dividing by the
measured value, not the predicted one — and that scalar is non-negative. -/
theorem error_function_sq_rel (nw fe f1 f2 : ℚ)
    (h : predict_focals nw = some
      [("empty", some (.fin fe)), ("one_filled", some (.fin f1)),
       ("both_filled", some (.fin f2))]) :
    error_function nw =
      some (.fin (((|fe| - |(-500 : ℚ)|) / (-500)) ^ 2
        + ((|f1| - |(132 : ℚ)|) / 132) ^ 2 + ((|f2| - |(55 : ℚ)|) / 55) ^ 2)) ∧
    0 ≤ ((|fe| - |(-500 : ℚ)|) / (-500)) ^ 2
        + ((|f1| - |(132 : ℚ)|) / 132) ^ 2 + ((|f2| - |(55 : ℚ)|) / 55) ^ 2 := by
  constructor
  · have e1 : ((-500 : ℚ)) ≠ 0 := by norm_num
    have e2 : ((132 : ℚ)) ≠ 0 := by norm_num
    have e3 : ((55 : ℚ)) ≠ 0 := by norm_num
    simp only [error_function, h, Option.some_bind]
    simp [errLoop, f_measured, List.lookup, PVal.abs_fin, PVal.sub_fin, PVal.add_fin,
      PVal.mul_fin, PVal.div_fin _ _ e1, PVal.div_fin _ _ e2, PVal.div_fin _ _ e3]
    ring
  · positivity

/-- Witness for Claim C3 at fill index `1.333` and the exact traced focal
lengths of the three configurations. -/
theorem error_function_sq_rel_witness :
    error_function 1.333 =
      some (.fin (((|(-129148695696750 / 294113315399 : ℚ)| - |(-500 : ℚ)|) / (-500)) ^ 2
        + ((|(333505011622897470000 / 3141173307169895399 : ℚ)| - |(132 : ℚ)|) / 132) ^ 2
        + ((|(11048580207638816250 / 329973427222194587 : ℚ)| - |(55 : ℚ)|) / 55) ^ 2)) ∧
    0 ≤ ((|(-129148695696750 / 294113315399 : ℚ)| - |(-500 : ℚ)|) / (-500)) ^ 2
        + ((|(333505011622897470000 / 3141173307169895399 : ℚ)| - |(132 : ℚ)|) / 132) ^ 2
        + ((|(11048580207638816250 / 329973427222194587 : ℚ)| - |(55 : ℚ)|) / 55) ^ 2 :=
  error_function_sq_rel 1.333 (-129148695696750 / 294113315399)
    (333505011622897470000 / 3141173307169895399) (11048580207638816250 / 329973427222194587)
    (by norm_num [predict_focals, traceAll, build_systems, trace_system, traceFrom,
      n_air, n_plexi, R_outer, R_inner, wall_thickness, partition_thickness,
      cavity_thickness, refract_fin_fin, refract_fin_posInf, refract_posInfR_fin,
      PVal.div_fin, PVal.sub_fin, PVal.mul_fin])

/-- Claim C4: at fill index `1.333` with the documented geometry constants the
"empty" configuration's predicted focal length is the exact rational
`-129148695696750/294113315399 ≈ -439.1 mm`: negative, with magnitude in the
hundreds of millimeters. -/
theorem predicted_empty_focal_1333 :
    (predict_focals 1.333).bind (fun fs => fs.lookup "empty")
        = some (some (.fin (-129148695696750 / 294113315399))) ∧
    (-129148695696750 / 294113315399 : ℚ) < -100 ∧
    (-1000 : ℚ) < -129148695696750 / 294113315399 := by
  refine ⟨?_, by norm_num, by norm_num⟩
  norm_num [predict_focals, traceAll, build_systems, trace_system, traceFrom,
    n_air, n_plexi, R_outer, R_inner, wall_thickness, partition_thickness,
    cavity_thickness, refract_fin_fin, refract_fin_posInf, refract_posInfR_fin,
    PVal.div_fin, PVal.sub_fin, PVal.mul_fin, List.lookup]

/-- Claim C5: for every fill index, the builder returns exactly the three
systems "empty", "one_filled", "both_filled" in that order; each surface list
has six surfaces (hence size at least 1) and its final surface has `t = 0`. -/
theorem build_systems_shape (n : ℚ) :
    (build_systems n).map Prod.fst = ["empty", "one_filled", "both_filled"] ∧
    ((build_systems n).all fun p =>
      p.2.length == 6 && decide (1 ≤ p.2.length) &&
        (p.2.getLast?.map (fun srf => srf.t) == some (PVal.fin 0))) = true :=
  ⟨rfl, rfl⟩

/-- Claim C6: for every fill index the three systems share the same geometry
(the same radius/thickness list, with `+R_inner` on the entry-side inner
curved surface and `-R_inner` on the exit side), while the media are: both
cavities air in "empty"; only the second cavity (partition exit to second
inner curved surface) holding the fill liquid in "one_filled"; both cavities
holding the fill liquid in "both_filled", where only the outermost two
surfaces interface with ambient air. -/
theorem build_systems_media (n : ℚ) :
    ((build_systems n).map fun p => p.2.map fun srf => (srf.R, srf.t)) =
      [[(.fin R_outer, .fin wall_thickness), (.fin R_inner, .fin cavity_thickness),
        (.posInf, .fin partition_thickness), (.posInf, .fin cavity_thickness),
        (.fin (-R_inner), .fin wall_thickness), (.fin (-R_outer), .fin 0)],
       [(.fin R_outer, .fin wall_thickness), (.fin R_inner, .fin cavity_thickness),
        (.posInf, .fin partition_thickness), (.posInf, .fin cavity_thickness),
        (.fin (-R_inner), .fin wall_thickness), (.fin (-R_outer), .fin 0)],
       [(.fin R_outer, .fin wall_thickness), (.fin R_inner, .fin cavity_thickness),
        (.posInf, .fin partition_thickness), (.posInf, .fin cavity_thickness),
        (.fin (-R_inner), .fin wall_thickness), (.fin (-R_outer), .fin 0)]] ∧
    ((build_systems n).map fun p => p.2.map fun srf => (srf.n1, srf.n2)) =
      [[(.fin n_air, .fin n_plexi), (.fin n_plexi, .fin n_air),
        (.fin n_air, .fin n_plexi), (.fin n_plexi, .fin n_air),
        (.fin n_air, .fin n_plexi), (.fin n_plexi, .fin n_air)],
       [(.fin n_air, .fin n_plexi), (.fin n_plexi, .fin n_air),
        (.fin n_air, .fin n_plexi), (.fin n_plexi, .fin n),
        (.fin n, .fin n_plexi), (.fin n_plexi, .fin n_air)],
       [(.fin n_air, .fin n_plexi), (.fin n_plexi, .fin n),
        (.fin n, .fin n_plexi), (.fin n_plexi, .fin n),
        (.fin n, .fin n_plexi), (.fin n_plexi, .fin n_air)]] :=
  ⟨rfl, rfl⟩

/-- Claim C9: the "empty" entry of the predictor's output does not depend on
the fill index: the empty system's surfaces never mention it, so any two
successful predictions agree on the "empty" focal length. -/
theorem predict_focals_empty_independent (na nb : ℚ)
    (fa fb : List (String × Option PVal))
    (ha : predict_focals na = some fa) (hb : predict_focals nb = some fb) :
    fa.lookup "empty" = fb.lookup "empty" := by
  simp only [predict_focals, build_systems] at ha hb
  obtain ⟨ra, hra, hla⟩ := traceAll_cons_lookup _ _ _ _ ha
  obtain ⟨rb, hrb, hlb⟩ := traceAll_cons_lookup _ _ _ _ hb
  rw [hra] at hrb
  rw [hla, hlb, Option.some.inj hrb]

/-- Witness for Claim C9: the predictions at fill indices `1.333` and `1.5`
assign the same focal length to "empty" (and different ones elsewhere). -/
theorem predict_focals_empty_independent_witness :
    ([("empty", some (PVal.fin (-129148695696750 / 294113315399))),
      ("one_filled", some (PVal.fin (333505011622897470000 / 3141173307169895399))),
      ("both_filled", some (PVal.fin (11048580207638816250 / 329973427222194587)))]
        : List (String × Option PVal)).lookup "empty" =
    ([("empty", some (PVal.fin (-129148695696750 / 294113315399))),
      ("one_filled", some (PVal.fin (3651579842280 / 56613138901))),
      ("both_filled", some (PVal.fin (1124790211500 / 68603560513)))]
        : List (String × Option PVal)).lookup "empty" :=
  predict_focals_empty_independent 1.333 1.5 _ _
    (by norm_num [predict_focals, traceAll, build_systems, trace_system, traceFrom,
      n_air, n_plexi, R_outer, R_inner, wall_thickness, partition_thickness,
      cavity_thickness, refract_fin_fin, refract_fin_posInf, refract_posInfR_fin,
      PVal.div_fin, PVal.sub_fin, PVal.mul_fin])
    (by norm_num [predict_focals, traceAll, build_systems, trace_system, traceFrom,
      n_air, n_plexi, R_outer, R_inner, wall_thickness, partition_thickness,
      cavity_thickness, refract_fin_fin, refract_fin_posInf, refract_posInfR_fin,
      PVal.div_fin, PVal.sub_fin, PVal.mul_fin])

end Simulation
